import Mathlib

/-!
# Receiver firmware `WS_RX/src/main.cpp`

A shallow embedding of the receiver sketch: the CSI callback `_csi_rx_cb`, `setup()` and
`loop()`.  The sketch runs against three external collaborators (the serial port, the WiFi
association layer and the ESP-IDF CSI driver).  Their observable effects are recorded on a
`Board`; the values they hand back to the sketch (`WiFi.status()`, the `esp_err_t` results
checked by `ESP_ERROR_CHECK`) are supplied by an `Env`.
-/

set_option autoImplicit false

namespace WS_RX

/-! ## Constants of the sketch -/

/-- Serial speed `BAUDRATE`. -/
def BAUDRATE : Nat := 921600

/-- The SSID of the transmitter's access point. -/
def ssid : String := "CSI_PROJECT_NETWORK"

/-- The password of the transmitter's access point. -/
def password : String := "passwordhardlikeassembly"

/-- The IP address of the transmitter. -/
def target_ip : String := "192.168.4.1"

/-- The UDP port of the transmitter. -/
def target_port : Nat := 8080

/-- The value range of `unsigned long` on the ESP32 (a 32-bit target): `2 ^ 32`. -/
def ULONG_MOD : Nat := 2 ^ 32

/-- MAC address of the TX device, `const uint8_t TX_mac[6]`. -/
def TX_mac : Fin 6 → Nat := ![0x84, 0x1F, 0xE8, 0x67, 0xF6, 0xAD]

/-! ## Types of the WiFi library and the ESP-IDF driver -/

/-- The link status values of the Arduino WiFi library (`wl_status_t`). -/
inductive wl_status_t where
  | WL_NO_SHIELD
  | WL_IDLE_STATUS
  | WL_NO_SSID_AVAIL
  | WL_SCAN_COMPLETED
  | WL_CONNECTED
  | WL_CONNECT_FAILED
  | WL_CONNECTION_LOST
  | WL_DISCONNECTED
  deriving DecidableEq, Repr

open wl_status_t

/-- ESP-IDF result codes; only the distinction `ESP_OK` / anything else matters here. -/
abbrev esp_err_t := Int

/-- The success code. -/
def ESP_OK : esp_err_t := 0

/-- The generic failure code. -/
def ESP_FAIL : esp_err_t := -1

/-- The fields of `wifi_csi_config_t` that the sketch sets; `= {}` zero-initialises them. -/
structure wifi_csi_config_t where
  lltf_en : Nat := 0
  htltf_en : Nat := 0
  stbc_htltf2_en : Nat := 0
  ltf_merge_en : Nat := 0
  channel_filter_en : Nat := 0
  manu_scale : Nat := 0
  shift : Nat := 0
  deriving DecidableEq, Repr

/-- The fields of `wifi_csi_info_t` that the callback reads: `rx_ctrl.rssi` (a signed 8-bit
bit-field), `mac` (`uint8_t[6]`), `buf` (`int8_t *`, pointing at `len` samples) and `len`
(`uint16_t`).  The embedding keeps the numbers unbounded; every statement below therefore
holds in particular for all values the C types admit. -/
structure wifi_csi_info_t where
  rssi : Int
  mac : Fin 6 → Nat
  buf : List Int
  len : Nat

/-- Function pointers that can be handed to `esp_wifi_set_csi_rx_cb`. -/
inductive csi_cb_t where
  | csi_rx_cb
  deriving DecidableEq, Repr

/-- The calls the sketch makes on its collaborators, apart from writes to the serial port. -/
inductive Event where
  | Serial_begin (baud : Nat)
  | WiFi_mode_STA
  | esp_wifi_set_ps_NONE
  | WiFi_begin (ssid password : String)
  | WiFi_status (result : wl_status_t)
  | WiFi_disconnect
  | delay (ms : Nat)
  | esp_wifi_set_csi (en : Bool)
  | esp_wifi_set_csi_config (cfg : wifi_csi_config_t)
  | esp_wifi_set_csi_rx_cb (cb : csi_cb_t)
  | udp_beginPacket (ip : String) (port : Nat)
  | udp_print (bytes : List Char)
  | udp_endPacket
  deriving DecidableEq, Repr

/-- The state the sketch acts on: the global `packets`, the characters written to `Serial`
so far, the number of `WiFi.status()` polls answered so far, and the calls made so far. -/
structure Board where
  packets : Nat
  serial : List Char
  polls : Nat
  trace : List Event
  deriving DecidableEq, Repr

/-- What the collaborators answer: `status k` is the result of the `k`-th `WiFi.status()`
poll (counted from 0 at power-on); the three `esp_err_t` values are the results of the
driver calls wrapped in `ESP_ERROR_CHECK`. -/
structure Env where
  status : Nat → wl_status_t
  set_csi_ret : esp_err_t
  set_csi_config_ret : esp_err_t
  set_csi_rx_cb_ret : esp_err_t

/-- The state at power-on: `packets = 0`, nothing written, nothing called. -/
def power_on : Board := { packets := 0, serial := [], polls := 0, trace := [] }

/-! ## The `Print` class of the Arduino core -/

/-- The do-while loop of `Print::printNumber` for base 10: peel off the last digit, put its
character in front of the text built so far, continue while the quotient is not zero. -/
def printNumberLoop : Nat → Nat → List Char → List Char
  | 0, _, str => str
  | fuel + 1, n, str =>
    let c := n % 10
    let n1 := n / 10
    let str1 := Char.ofNat (c + 48) :: str
    if n1 ≠ 0 then printNumberLoop fuel n1 str1 else str1

/-- The text of `Print::printNumber(n, 10)`.  The loop runs once per decimal digit, so
`n + 1` rounds always suffice. -/
def printNumber (n : Nat) : List Char := printNumberLoop (n + 1) n []

/-- The text of `Print::print(unsigned long, DEC)`. -/
def print_ulong (n : Nat) : List Char := printNumber n

/-- The text of `Print::print(long, DEC)`, which `print(int)` forwards to: a minus sign
for a negative value, then the magnitude. -/
def print_long (n : Int) : List Char :=
  if n < 0 then '-' :: printNumber (-n).toNat else printNumber n.toNat

/-- Writing text to the serial port appends it to what was written before. -/
def Serial_print (s : List Char) (b : Board) : Board :=
  { b with serial := b.serial ++ s }

/-- The text of `Serial.println()`: carriage return, line feed. -/
def line_end : List Char := ['\r', '\n']

/-- Writing text followed by the line terminator. -/
def Serial_println (s : List Char) (b : Board) : Board :=
  Serial_print line_end (Serial_print s b)

/-- Record a call on a collaborator. -/
def emit (e : Event) (b : Board) : Board :=
  { b with trace := b.trace ++ [e] }

/-! ## The CSI callback -/

/-- The MAC comparison loop of `_csi_rx_cb`: `match` stays `true` unless some byte differs,
in which case the loop stops with `false`. -/
def mac_loop (mac : Fin 6 → Nat) : Nat → Nat → Bool
  | 0, _ => true
  | fuel + 1, i =>
    if h : i < 6 then
      if mac ⟨i, h⟩ ≠ TX_mac ⟨i, h⟩ then false
      else mac_loop mac fuel (i + 1)
    else true

/-- The payload loop of `_csi_rx_cb`, entered at index `i`: print `ptr[i]`, then the
separator when `i < len - 1`.  A read at an index outside `buf` (which the driver rules
out, `buf` holding `len` samples) is read as `0`. -/
def payload_loop (data : wifi_csi_info_t) : Nat → Nat → Board → Board
  | 0, _, b => b
  | fuel + 1, i, b =>
    if (i : Int) < (data.len : Int) then
      let b1 := Serial_print (print_long (data.buf.getD i 0)) b
      let b2 := if (i : Int) < (data.len : Int) - 1 then Serial_print ", ".toList b1 else b1
      payload_loop data fuel (i + 1) b2
    else b

/-- The callback `_csi_rx_cb(ctx, data)`.  `packets++` yields the old value and stores the
successor, reduced to the range of `unsigned long`. -/
def _csi_rx_cb (b : Board) (data : wifi_csi_info_t) : Board :=
  if data.len > 0 then
    let matched := mac_loop data.mac 6 0
    if matched then
      let b := Serial_print "[CSI DATA] Packet no. ".toList b
      let seq := b.packets
      let b := { b with packets := (seq + 1) % ULONG_MOD }
      let b := Serial_print (print_ulong seq) b
      let b := Serial_print ", RSSI ".toList b
      let b := Serial_print (print_long data.rssi) b
      let b := Serial_print ", Length ".toList b
      let b := Serial_print (print_long (data.len : Int)) b
      let b := Serial_print ", Packet Data: ".toList b
      let b := payload_loop data data.len 0 b
      Serial_println [] b
    else b
  else b

/-- The driver delivers CSI records one at a time, in order. -/
def csi_events (b : Board) (rs : List wifi_csi_info_t) : Board :=
  rs.foldl _csi_rx_cb b

/-! ## `setup()` and `loop()` -/

/-- How far a piece of the sketch got: `done` when it ran to its end, `aborted` when an
`ESP_ERROR_CHECK` stopped the program, `waiting` when it was still inside a wait loop
after the allowed number of status polls. -/
inductive Outcome where
  | done (b : Board)
  | aborted (b : Board)
  | waiting (b : Board)
  deriving DecidableEq, Repr

/-- The state reached, however far the sketch got. -/
def Outcome.board : Outcome → Board
  | Outcome.done b => b
  | Outcome.aborted b => b
  | Outcome.waiting b => b

/-- The call `WiFi.status()`: the environment answers, the poll is recorded. -/
def WiFi_status (env : Env) (b : Board) : wl_status_t × Board :=
  (env.status b.polls,
    emit (Event.WiFi_status (env.status b.polls)) { b with polls := b.polls + 1 })

/-- The call `delay(ms)`. -/
def delay (ms : Nat) (b : Board) : Board := emit (Event.delay ms) b

/-- The wait loop of `setup()` and of `loop()`:
`while (WiFi.status() != WL_CONNECTED) { delay(500); Serial.print("."); }`,
allowed at most `fuel` status polls. -/
def wait_connected (env : Env) : Nat → Board → Outcome
  | 0, b => Outcome.waiting b
  | fuel + 1, b =>
    let r := WiFi_status env b
    if r.1 ≠ WL_CONNECTED then
      wait_connected env fuel (Serial_print ".".toList (delay 500 r.2))
    else Outcome.done r.2

/-- The macro `ESP_ERROR_CHECK(x)`: abort unless the result is `ESP_OK`, else go on. -/
def ESP_ERROR_CHECK (ret : esp_err_t) (b : Board) (next : Board → Outcome) : Outcome :=
  if ret ≠ ESP_OK then Outcome.aborted b else next b

/-- The CSI configuration built in `setup()`: zero-initialised, then seven assignments. -/
def configuration : wifi_csi_config_t :=
  let c : wifi_csi_config_t := {}
  let c := { c with lltf_en := 1 }
  let c := { c with htltf_en := 1 }
  let c := { c with stbc_htltf2_en := 1 }
  let c := { c with ltf_merge_en := 1 }
  let c := { c with channel_filter_en := 0 }
  let c := { c with manu_scale := 0 }
  { c with shift := 0 }

/-- The function `setup()`. -/
def setup (env : Env) (fuel : Nat) (b : Board) : Outcome :=
  let b := emit (Event.Serial_begin BAUDRATE) b
  let b := emit Event.WiFi_mode_STA b
  let b := emit Event.esp_wifi_set_ps_NONE b
  let b := emit (Event.WiFi_begin ssid password) b
  let b := Serial_print "Connecting...".toList b
  match wait_connected env fuel b with
  | Outcome.done b =>
    let b := Serial_println "\nConnected.".toList b
    let b := emit (Event.esp_wifi_set_csi true) b
    ESP_ERROR_CHECK env.set_csi_ret b fun b =>
      let b := emit (Event.esp_wifi_set_csi_config configuration) b
      ESP_ERROR_CHECK env.set_csi_config_ret b fun b =>
        let b := emit (Event.esp_wifi_set_csi_rx_cb csi_cb_t.csi_rx_cb) b
        ESP_ERROR_CHECK env.set_csi_rx_cb_ret b fun b => Outcome.done b
  | o => o

/-- The function `loop()`; `udp.print(0x00)` prints the `int` zero as decimal text. -/
def loop (env : Env) (fuel : Nat) (b : Board) : Outcome :=
  let r := WiFi_status env b
  if r.1 ≠ WL_CONNECTED then
    let b := Serial_print "Connection lost. Reconnecting...".toList r.2
    let b := emit Event.WiFi_disconnect b
    let b := emit (Event.WiFi_begin ssid password) b
    match wait_connected env fuel b with
    | Outcome.done b =>
      let b := Serial_println "\nReconnected.".toList b
      Outcome.done (delay 15 b)
    | o => o
  else
    let b := emit (Event.udp_beginPacket target_ip target_port) r.2
    let b := emit (Event.udp_print (print_long 0)) b
    let b := emit Event.udp_endPacket b
    Outcome.done (delay 15 b)

/-- Iterations of `loop()` one after the other, as the Arduino core runs them.  Before
each iteration the driver may deliver CSI records to the callback (the callback shares
only `packets` and the serial text with the sketch, neither of which `loop()` reads). -/
def run_loops (env : Env) (fuel : Nat) : List (List wifi_csi_info_t) → Board → Outcome
  | [], b => Outcome.done b
  | rs :: rest, b =>
    match loop env fuel (csi_events b rs) with
    | Outcome.done b1 => run_loops env fuel rest b1
    | o => o

/-- A run of the sketch from power-on: `setup()` once, then `loop()` again and again. -/
def sketch (env : Env) (fuel : Nat) (deliveries : List (List wifi_csi_info_t)) : Outcome :=
  match setup env fuel power_on with
  | Outcome.done b => run_loops env fuel deliveries b
  | o => o

/-! ## Reading the trace -/

/-- One datagram handed to the network. -/
structure Datagram where
  ip : String
  port : Nat
  payload : List Char
  deriving DecidableEq, Repr

/-- The datagrams a sequence of `WiFiUDP` calls sends: `beginPacket` opens an empty packet
for a destination, `print` appends to the open packet, `endPacket` sends it. -/
def datagrams_from : Option Datagram → List Event → List Datagram
  | _, [] => []
  | _, Event.udp_beginPacket ip port :: es => datagrams_from (some ⟨ip, port, []⟩) es
  | some d, Event.udp_print bytes :: es =>
    datagrams_from (some { d with payload := d.payload ++ bytes }) es
  | some d, Event.udp_endPacket :: es => d :: datagrams_from none es
  | st, _ :: es => datagrams_from st es

/-- The datagrams sent by a sequence of calls that starts with no packet open. -/
def datagrams (es : List Event) : List Datagram := datagrams_from none es

/-- The calls that activate CSI capture. -/
def is_csi_call : Event → Bool
  | Event.esp_wifi_set_csi _ => true
  | Event.esp_wifi_set_csi_config _ => true
  | Event.esp_wifi_set_csi_rx_cb _ => true
  | _ => false

/-- The calls that change the association: disconnect and connect request. -/
def is_assoc_call : Event → Bool
  | Event.WiFi_disconnect => true
  | Event.WiFi_begin _ _ => true
  | _ => false

/-- The calls on the UDP object. -/
def is_udp_call : Event → Bool
  | Event.udp_beginPacket _ _ => true
  | Event.udp_print _ => true
  | Event.udp_endPacket => true
  | _ => false

/-- The calls made by `k` rounds of the wait loop that starts at poll number `p`: a status
poll that is answered by the environment, then `delay(500)`. -/
def wait_events (env : Env) : Nat → Nat → List Event
  | _, 0 => []
  | p, k + 1 => Event.WiFi_status (env.status p) :: Event.delay 500 :: wait_events env (p + 1) k

/-- A link that reports `WL_DISCONNECTED` for the first `n` polls and `WL_CONNECTED` from
then on; the driver accepts every call. -/
def env_up_after (n : Nat) : Env :=
  ⟨fun k => if k < n then WL_DISCONNECTED else WL_CONNECTED, ESP_OK, ESP_OK, ESP_OK⟩

/-- A link that is up for the first two polls, down for the next three and up from then
on; the driver accepts every call. -/
def env_outage : Env :=
  ⟨fun k => if 2 ≤ k ∧ k < 5 then WL_DISCONNECTED else WL_CONNECTED, ESP_OK, ESP_OK, ESP_OK⟩

/-- A link that never comes up; the driver would accept every call. -/
def env_never_up : Env :=
  ⟨fun _ => WL_DISCONNECTED, ESP_OK, ESP_OK, ESP_OK⟩

/-- A link that is up at once, with a driver that refuses `esp_wifi_set_csi`. -/
def env_csi_refused : Env :=
  ⟨fun _ => WL_CONNECTED, ESP_FAIL, ESP_OK, ESP_OK⟩

/-! ## The record format of the specification -/

/-- The admission rule in the words of the specification: a positive payload length and a
source address equal to `TX_mac` in all six bytes. -/
def admitted (R : wifi_csi_info_t) : Prop :=
  R.len > 0 ∧ ∀ i : Fin 6, R.mac i = TX_mac i

instance (R : wifi_csi_info_t) : Decidable (admitted R) := by
  unfold admitted; infer_instance

/-- Decimal text of an unsigned number. -/
def dec_nat (n : Nat) : List Char := (toString n).toList

/-- Decimal text of a signed number. -/
def dec_int (z : Int) : List Char := (toString z).toList

/-- Pieces joined by comma and blank, no separator after the last piece. -/
def comma_separated : List (List Char) → List Char
  | [] => []
  | [x] => x
  | x :: y :: ys => x ++ ", ".toList ++ comma_separated (y :: ys)

/-- The part of a record line up to and including `Packet Data: `. -/
def record_header (seq : Nat) (rssi : Int) (len : Nat) : List Char :=
  "[CSI DATA] Packet no. ".toList ++ dec_nat seq ++ ", RSSI ".toList ++ dec_int rssi ++
    ", Length ".toList ++ dec_nat len ++ ", Packet Data: ".toList

/-- The payload part of a record line. -/
def record_payload (p : List Int) : List Char :=
  comma_separated (p.map dec_int)

/-- One output record as the specification writes it, line terminator included. -/
def record_line (seq : Nat) (R : wifi_csi_info_t) : List Char :=
  record_header seq R.rssi R.len ++ record_payload R.buf ++ line_end

/-! ## Reading a payload back -/

/-- Read decimal digits, most significant first, onto the value read so far. -/
def parse_digits : List Char → Nat → Option Nat
  | [], acc => some acc
  | c :: cs, acc => if c.isDigit then parse_digits cs (acc * 10 + (c.toNat - 48)) else none

/-- Read an unsigned decimal number: at least one digit, nothing else. -/
def parse_nat (cs : List Char) : Option Nat :=
  if cs = [] then none else parse_digits cs 0

/-- Read a signed decimal integer: an optional minus sign, then an unsigned number. -/
def parse_int : List Char → Option Int
  | '-' :: cs => (parse_nat cs).map (fun n => -(n : Int))
  | cs => (parse_nat cs).map (fun n => (n : Int))

/-- Split a text at every occurrence of comma-blank; `cur` is the piece being read. -/
def split_comma_space : List Char → List Char → List (List Char)
  | [], cur => [cur]
  | ',' :: ' ' :: rest, cur => cur :: split_comma_space rest []
  | c :: rest, cur => split_comma_space rest (cur ++ [c])

/-- Read every piece as a signed integer; fails if one piece is not a number. -/
def parse_all : List (List Char) → Option (List Int)
  | [] => some []
  | w :: ws =>
    match parse_int w, parse_all ws with
    | some v, some vs => some (v :: vs)
    | _, _ => none

/-- Split the payload text on comma-blank and read each piece as a signed integer. -/
def parse_payload (text : List Char) : Option (List Int) :=
  parse_all (split_comma_space text [])

/-- The number of records of a list that the admission rule accepts. -/
def admitted_count (rs : List wifi_csi_info_t) : Nat :=
  (rs.filter (fun r => decide (admitted r))).length

/-! ## The events of the specification's scenario -/

/-- Event 1: matching address, three samples 1, -2, 127, RSSI -45. -/
def event1 : wifi_csi_info_t := ⟨-45, TX_mac, [1, -2, 127], 3⟩

/-- Event 2: address 00:00:00:00:00:01, which is not the transmitter's. -/
def event2 : wifi_csi_info_t := ⟨-70, ![0, 0, 0, 0, 0, 1], [7, 8], 2⟩

/-- Event 3: matching address, payload length zero. -/
def event3 : wifi_csi_info_t := ⟨-50, TX_mac, [], 0⟩

/-- Event 4: matching address, one sample 5, RSSI -60. -/
def event4 : wifi_csi_info_t := ⟨-60, TX_mac, [5], 1⟩

/-! ## Facts about the printing routines -/

theorem digit_char_eq (c : Nat) (h : c < 10) : Char.ofNat (c + 48) = Nat.digitChar c := by
  interval_cases c <;> rfl

theorem printNumberLoop_eq_toDigitsCore (fuel n : Nat) (str : List Char) :
    printNumberLoop fuel n str = Nat.toDigitsCore 10 fuel n str := by
  induction fuel generalizing n str with
  | zero => rfl
  | succ fuel ih =>
    have hd : Char.ofNat (n % 10 + 48) = Nat.digitChar (n % 10) :=
      digit_char_eq _ (Nat.mod_lt _ (by decide))
    simp only [printNumberLoop, Nat.toDigitsCore, hd, ih]
    by_cases h : n / 10 = 0 <;> simp [h]

theorem printNumber_eq_dec_nat (n : Nat) : printNumber n = dec_nat n := by
  unfold printNumber dec_nat
  rw [printNumberLoop_eq_toDigitsCore]
  rfl

theorem print_long_eq_dec_int (z : Int) : print_long z = dec_int z := by
  unfold print_long dec_int
  cases z with
  | ofNat m =>
    have h : ¬ (Int.ofNat m < 0) := by simp
    rw [if_neg h]
    show printNumber m = _
    rw [printNumber_eq_dec_nat]; rfl
  | negSucc m =>
    have h : Int.negSucc m < 0 := Int.negSucc_lt_zero m
    rw [if_pos h]
    show '-' :: printNumber (m + 1) = _
    rw [printNumber_eq_dec_nat]; rfl

theorem dec_int_natCast (n : Nat) : dec_int (n : Int) = dec_nat n := rfl

/-! ## Facts about the callback -/

theorem mac_loop_iff (mac : Fin 6 → Nat) :
    mac_loop mac 6 0 = true ↔ ∀ i : Fin 6, mac i = TX_mac i := by
  simp [mac_loop, Fin.forall_fin_succ]
  tauto

theorem Serial_print_nil (b : Board) : Serial_print [] b = b := by
  simp [Serial_print]

theorem Serial_print_print (s t : List Char) (b : Board) :
    Serial_print t (Serial_print s b) = Serial_print (s ++ t) b := by
  simp [Serial_print]

theorem comma_separated_cons (x : List Char) (xs : List (List Char)) (h : xs ≠ []) :
    comma_separated (x :: xs) = x ++ ", ".toList ++ comma_separated xs := by
  cases xs with
  | nil => exact absurd rfl h
  | cons y ys => rfl

theorem payload_loop_eq (data : wifi_csi_info_t) (hlen : data.buf.length = data.len) :
    ∀ (fuel i : Nat) (b : Board), i ≤ data.len → data.len - i ≤ fuel →
      payload_loop data fuel i b = Serial_print (record_payload (data.buf.drop i)) b := by
  intro fuel
  induction fuel with
  | zero =>
    intro i b hi hf
    have : data.buf.drop i = [] := List.drop_eq_nil_of_le (by omega)
    simp [payload_loop, this, record_payload, comma_separated, Serial_print_nil]
  | succ fuel ih =>
    intro i b hi hf
    by_cases hlt : i < data.len
    · have hlt1 : (i : Int) < (data.len : Int) := by exact_mod_cast hlt
      have hi2 : i < data.buf.length := by omega
      have hdrop : data.buf.drop i = data.buf.getD i 0 :: data.buf.drop (i + 1) := by
        rw [List.getD_eq_getElem _ _ hi2]
        exact List.drop_eq_getElem_cons hi2
      rw [payload_loop, if_pos hlt1]
      simp only []
      rw [hdrop]
      by_cases hlast : i + 1 < data.len
      · have h2 : (i : Int) < (data.len : Int) - 1 := by omega
        have hne : (data.buf.drop (i + 1)).map dec_int ≠ [] := by
          intro h
          have := congrArg List.length h
          simp at this
          omega
        rw [if_pos h2, ih (i + 1) _ (by omega) (by omega), Serial_print_print,
          Serial_print_print, print_long_eq_dec_int]
        simp only [record_payload, List.map_cons]
        rw [comma_separated_cons _ _ hne, List.append_assoc]
      · have h2 : ¬ (i : Int) < (data.len : Int) - 1 := by omega
        have hnil : data.buf.drop (i + 1) = [] := List.drop_eq_nil_of_le (by omega)
        rw [if_neg h2, ih (i + 1) _ (by omega) (by omega), Serial_print_print,
          print_long_eq_dec_int, hnil]
        simp [record_payload, comma_separated]
    · have hlt1 : ¬ (i : Int) < (data.len : Int) := by exact_mod_cast hlt
      have : data.buf.drop i = [] := List.drop_eq_nil_of_le (by omega)
      rw [payload_loop, if_neg hlt1, this]
      simp [record_payload, comma_separated, Serial_print_nil]

theorem csi_rx_cb_rejected (b : Board) (R : wifi_csi_info_t) (h : ¬ admitted R) :
    _csi_rx_cb b R = b := by
  unfold _csi_rx_cb
  by_cases hl : R.len > 0
  · have hm : ¬ (mac_loop R.mac 6 0 = true) := by
      rw [mac_loop_iff]; exact fun hm => h ⟨hl, hm⟩
    simp [hl, hm]
  · simp [hl]

theorem csi_rx_cb_admitted (b : Board) (R : wifi_csi_info_t) (h : admitted R)
    (hlen : R.buf.length = R.len) :
    _csi_rx_cb b R =
      { b with packets := (b.packets + 1) % ULONG_MOD,
               serial := b.serial ++ record_line b.packets R } := by
  have hm : mac_loop R.mac 6 0 = true := (mac_loop_iff _).2 h.2
  unfold _csi_rx_cb
  rw [if_pos h.1]
  simp only [hm, if_true]
  rw [payload_loop_eq R hlen R.len 0 _ (Nat.zero_le _) (by omega)]
  simp [Serial_println, Serial_print, record_line, record_header, print_ulong,
    printNumber_eq_dec_nat, print_long_eq_dec_int, dec_int_natCast, List.append_assoc]

theorem payload_loop_appends (data : wifi_csi_info_t) :
    ∀ (fuel i : Nat) (b : Board), ∃ t, payload_loop data fuel i b = Serial_print t b := by
  intro fuel
  induction fuel with
  | zero => intro i b; exact ⟨[], by simp [payload_loop, Serial_print_nil]⟩
  | succ fuel ih =>
    intro i b
    rw [payload_loop]
    split
    · simp only []
      split
      · obtain ⟨t, ht⟩ := ih (i + 1)
          (Serial_print ", ".toList (Serial_print (print_long (data.buf.getD i 0)) b))
        exact ⟨_, by rw [ht, Serial_print_print, Serial_print_print]⟩
      · obtain ⟨t, ht⟩ := ih (i + 1) (Serial_print (print_long (data.buf.getD i 0)) b)
        exact ⟨_, by rw [ht, Serial_print_print]⟩
    · exact ⟨[], by simp [Serial_print_nil]⟩

theorem csi_rx_cb_admitted_unfold (b : Board) (R : wifi_csi_info_t) (h : admitted R) :
    _csi_rx_cb b R = Serial_println [] (payload_loop R R.len 0
      { b with packets := (b.packets + 1) % ULONG_MOD,
               serial := b.serial ++ record_header b.packets R.rssi R.len }) := by
  have hm : mac_loop R.mac 6 0 = true := (mac_loop_iff _).2 h.2
  unfold _csi_rx_cb
  rw [if_pos h.1]
  simp only [hm, if_true]
  congr 2
  simp [Serial_print, record_header, print_ulong, printNumber_eq_dec_nat,
    print_long_eq_dec_int, dec_int_natCast, List.append_assoc]

theorem csi_rx_cb_admitted_header (b : Board) (R : wifi_csi_info_t) (h : admitted R) :
    ∃ body, _csi_rx_cb b R =
      { b with packets := (b.packets + 1) % ULONG_MOD,
               serial := b.serial ++
                 (record_header b.packets R.rssi R.len ++ body ++ line_end) } := by
  obtain ⟨t, ht⟩ := payload_loop_appends R R.len 0
    { b with packets := (b.packets + 1) % ULONG_MOD,
             serial := b.serial ++ record_header b.packets R.rssi R.len }
  refine ⟨t, ?_⟩
  rw [csi_rx_cb_admitted_unfold b R h, ht]
  simp [Serial_println, Serial_print, List.append_assoc]

theorem digit_char_isDigit (c : Nat) (h : c < 10) :
    (Char.ofNat (c + 48)).isDigit = true ∧ (Char.ofNat (c + 48)).toNat - 48 = c := by
  interval_cases c <;> exact ⟨rfl, rfl⟩

theorem parse_digits_append (xs ys : List Char) (acc : Nat) :
    parse_digits (xs ++ ys) acc = (parse_digits xs acc).bind (fun a => parse_digits ys a) := by
  induction xs generalizing acc with
  | nil => rfl
  | cons c cs ih =>
    simp only [List.cons_append, parse_digits]
    split
    · exact ih _
    · rfl

theorem printNumberLoop_digits (fuel : Nat) :
    ∀ (n : Nat) (str : List Char), n < fuel →
      ∃ ds, printNumberLoop fuel n str = ds ++ str ∧ ds ≠ [] ∧
        parse_digits ds 0 = some n ∧ ∀ c ∈ ds, c.isDigit = true := by
  induction fuel with
  | zero => intro n str h; omega
  | succ fuel ih =>
    intro n str h
    obtain ⟨hd1, hd2⟩ := digit_char_isDigit (n % 10) (Nat.mod_lt _ (by decide))
    rw [printNumberLoop]
    by_cases hq : n / 10 ≠ 0
    · rw [if_pos hq]
      have hlt : n / 10 < fuel := by omega
      obtain ⟨ds, h1, _, h3, h4⟩ := ih (n / 10) (Char.ofNat (n % 10 + 48) :: str) hlt
      refine ⟨ds ++ [Char.ofNat (n % 10 + 48)], ?_, by simp, ?_, ?_⟩
      · rw [h1]; simp
      · rw [parse_digits_append, h3]
        simp only [Option.some_bind, parse_digits, hd1, if_true, hd2]
        congr 1
        omega
      · intro c hc
        rcases List.mem_append.1 hc with hc | hc
        · exact h4 c hc
        · rw [List.mem_singleton.1 hc]; exact hd1
    · rw [if_neg hq]
      have hq0 : n / 10 = 0 := by omega
      refine ⟨[Char.ofNat (n % 10 + 48)], rfl, by simp, ?_, ?_⟩
      · simp only [parse_digits, hd1, if_true, hd2]
        congr 1
        omega
      · intro c hc
        rw [List.mem_singleton.1 hc]; exact hd1

theorem printNumber_digits (n : Nat) :
    printNumber n ≠ [] ∧ parse_digits (printNumber n) 0 = some n ∧
      ∀ c ∈ printNumber n, c.isDigit = true := by
  obtain ⟨ds, h1, h2, h3, h4⟩ := printNumberLoop_digits (n + 1) n [] (Nat.lt_succ_self n)
  have h : printNumber n = ds := by rw [printNumber, h1, List.append_nil]
  rw [h]
  exact ⟨h2, h3, h4⟩

theorem parse_nat_printNumber (n : Nat) : parse_nat (printNumber n) = some n := by
  obtain ⟨h1, h2, _⟩ := printNumber_digits n
  rw [parse_nat, if_neg h1, h2]

theorem parse_int_digits (ds : List Char) (h : ∀ c ∈ ds, c.isDigit = true) :
    parse_int ds = (parse_nat ds).map (fun n => (n : Int)) := by
  cases ds with
  | nil => rfl
  | cons c cs =>
    have hc : c ≠ '-' := by
      intro hc
      have := h c (List.mem_cons_self _ _)
      rw [hc] at this
      exact absurd this (by decide)
    unfold parse_int
    split
    · rename_i heq
      exact absurd (List.cons.inj heq).1 hc
    · rfl

theorem parse_int_dec_int (z : Int) : parse_int (dec_int z) = some z := by
  rw [← print_long_eq_dec_int]
  unfold print_long
  by_cases hz : z < 0
  · rw [if_pos hz]
    show (parse_nat (printNumber (-z).toNat)).map (fun n => -(n : Int)) = some z
    rw [parse_nat_printNumber]
    show some (-(((-z).toNat : Nat) : Int)) = some z
    congr 1
    omega
  · rw [if_neg hz, parse_int_digits _ (printNumber_digits _).2.2, parse_nat_printNumber]
    show some ((z.toNat : Nat) : Int) = some z
    congr 1
    omega

theorem dec_int_no_comma (z : Int) : ∀ c ∈ dec_int z, c ≠ ',' := by
  rw [← print_long_eq_dec_int]
  have hdig : ∀ (n : Nat), ∀ c ∈ printNumber n, c ≠ ',' := by
    intro n c hc heq
    have := (printNumber_digits n).2.2 c hc
    rw [heq] at this
    exact absurd this (by decide)
  unfold print_long
  split
  · intro c hc
    rcases List.mem_cons.1 hc with hc | hc
    · rw [hc]; decide
    · exact hdig _ c hc
  · exact hdig _

theorem split_comma_space_piece (w : List Char) (hw : ∀ c ∈ w, c ≠ ',') :
    ∀ (rest cur : List Char),
      split_comma_space (w ++ rest) cur = split_comma_space rest (cur ++ w) := by
  induction w with
  | nil => intro rest cur; simp
  | cons c cs ih =>
    intro rest cur
    have hc : c ≠ ',' := hw c (List.mem_cons_self _ _)
    have hcs : ∀ d ∈ cs, d ≠ ',' := fun d hd => hw d (List.mem_cons_of_mem _ hd)
    rw [List.cons_append, split_comma_space]
    · rw [ih hcs, List.append_assoc]; rfl
    · intro rest1 h1 _
      exact hc h1

theorem split_comma_separated (ws : List (List Char)) (hne : ws ≠ [])
    (hws : ∀ w ∈ ws, ∀ c ∈ w, c ≠ ',') :
    split_comma_space (comma_separated ws) [] = ws := by
  induction ws with
  | nil => exact absurd rfl hne
  | cons x xs ih =>
    have hx := hws x (List.mem_cons_self _ _)
    cases xs with
    | nil =>
      have := split_comma_space_piece x hx [] []
      simp only [List.append_nil, List.nil_append] at this
      rw [comma_separated, this, split_comma_space]
    | cons y ys =>
      have hrest := ih (by simp) (fun w hw => hws w (List.mem_cons_of_mem _ hw))
      rw [comma_separated_cons x (y :: ys) (by simp), List.append_assoc,
        split_comma_space_piece x hx]
      show split_comma_space (',' :: ' ' :: comma_separated (y :: ys)) ([] ++ x) = _
      rw [split_comma_space, hrest, List.nil_append]

theorem parse_all_dec_int (p : List Int) : parse_all (p.map dec_int) = some p := by
  induction p with
  | nil => rfl
  | cons v vs ih => simp only [List.map_cons, parse_all, parse_int_dec_int, ih]

theorem parse_payload_record_payload (p : List Int) (hne : p ≠ []) :
    split_comma_space (record_payload p) [] = p.map dec_int ∧
      parse_payload (record_payload p) = some p := by
  have hs : split_comma_space (record_payload p) [] = p.map dec_int := by
    apply split_comma_separated
    · simpa using hne
    · intro w hw
      obtain ⟨z, _, rfl⟩ := List.mem_map.1 hw
      exact dec_int_no_comma z
  exact ⟨hs, by rw [parse_payload, hs, parse_all_dec_int]⟩

/-! ## Sequences of callback invocations -/

theorem csi_events_rejected (rej : List wifi_csi_info_t) (h : ∀ r ∈ rej, ¬ admitted r)
    (b : Board) : csi_events b rej = b := by
  induction rej with
  | nil => rfl
  | cons r rs ih =>
    show csi_events (_csi_rx_cb b r) rs = b
    rw [csi_rx_cb_rejected b r (h r (List.mem_cons_self _ _))]
    exact ih (fun x hx => h x (List.mem_cons_of_mem _ hx))

theorem csi_rx_cb_packets_admitted (b : Board) (R : wifi_csi_info_t) (h : admitted R) :
    (_csi_rx_cb b R).packets = (b.packets + 1) % ULONG_MOD := by
  obtain ⟨body, hb⟩ := csi_rx_cb_admitted_header b R h
  rw [hb]

theorem admitted_count_cons (r : wifi_csi_info_t) (rs : List wifi_csi_info_t) :
    admitted_count (r :: rs) = if admitted r then admitted_count rs + 1 else admitted_count rs := by
  unfold admitted_count
  by_cases h : admitted r <;> simp [List.filter_cons, h]

theorem csi_events_packets (rs : List wifi_csi_info_t) :
    ∀ b : Board, b.packets < ULONG_MOD →
      (csi_events b rs).packets = (b.packets + admitted_count rs) % ULONG_MOD := by
  induction rs with
  | nil =>
    intro b hb
    show b.packets = (b.packets + 0) % ULONG_MOD
    rw [Nat.add_zero, Nat.mod_eq_of_lt hb]
  | cons r rs ih =>
    intro b hb
    show (csi_events (_csi_rx_cb b r) rs).packets = _
    rw [admitted_count_cons]
    by_cases h : admitted r
    · have hp := csi_rx_cb_packets_admitted b r h
      have hlt : (_csi_rx_cb b r).packets < ULONG_MOD := by
        rw [hp]; exact Nat.mod_lt _ (by decide)
      rw [ih _ hlt, hp, if_pos h]
      simp only [ULONG_MOD]
      omega
    · rw [csi_rx_cb_rejected b r h, ih b hb, if_neg h]

theorem csi_events_power_on_packets (rs : List wifi_csi_info_t) :
    (csi_events power_on rs).packets = admitted_count rs % 2 ^ 32 := by
  have := csi_events_packets rs power_on (by decide)
  simpa [power_on, ULONG_MOD] using this

theorem admitted_count_replicate (n : Nat) (R : wifi_csi_info_t) (h : admitted R) :
    admitted_count (List.replicate n R) = n := by
  induction n with
  | zero => rfl
  | succ n ih => rw [List.replicate_succ, admitted_count_cons, if_pos h, ih]

theorem record_header_zero_ne (rssi : Int) (len : Nat) :
    record_header 0 rssi len ≠ record_header 4294967296 rssi len := by
  have h0 : dec_nat 0 = ['0'] := by decide
  have h1 : dec_nat 4294967296 = "4294967296".toList := by decide
  intro h
  unfold record_header at h
  rw [h0, h1] at h
  simp only [List.append_assoc, List.append_cancel_left_eq] at h
  exact absurd (List.cons.inj h).1 (by decide)

/-! ## Claims about the callback -/

/-- C2: for an admitted record (address `TX_mac`, length `n > 0`, `n` payload samples) and
counter value `s`, the text the callback writes is exactly the literal
`[CSI DATA] Packet no. `, the decimal `s`, `, RSSI `, the signed decimal RSSI, `, Length `,
the decimal `n`, `, Packet Data: `, the samples in signed decimal joined by comma-blank
with no separator after the last one, and the line terminator. -/
theorem csi_rx_cb_text (b : Board) (R : wifi_csi_info_t)
    (hmac : ∀ i : Fin 6, R.mac i = TX_mac i) (hpos : R.len > 0)
    (hbuf : R.buf.length = R.len) :
    (_csi_rx_cb b R).serial = b.serial ++
      ("[CSI DATA] Packet no. ".toList ++ dec_nat b.packets ++ ", RSSI ".toList ++
        dec_int R.rssi ++ ", Length ".toList ++ dec_nat R.len ++ ", Packet Data: ".toList ++
        comma_separated (R.buf.map dec_int) ++ ['\r', '\n']) := by
  rw [csi_rx_cb_admitted b R ⟨hpos, hmac⟩ hbuf]
  rfl

/-- The scenario of the specification as an instance of C2: counter 0, RSSI -45 and
payload 1, -2, 127, then counter 1, RSSI -60 and payload 5. -/
theorem csi_rx_cb_text_witness :
    (_csi_rx_cb power_on ⟨-45, TX_mac, [1, -2, 127], 3⟩).serial =
      "[CSI DATA] Packet no. 0, RSSI -45, Length 3, Packet Data: 1, -2, 127\r\n".toList ∧
    (_csi_rx_cb { power_on with packets := 1 } ⟨-60, TX_mac, [5], 1⟩).serial =
      "[CSI DATA] Packet no. 1, RSSI -60, Length 1, Packet Data: 5\r\n".toList :=
  ⟨(csi_rx_cb_text power_on ⟨-45, TX_mac, [1, -2, 127], 3⟩ (fun _ => rfl) (by decide)
      rfl).trans (by decide),
   (csi_rx_cb_text { power_on with packets := 1 } ⟨-60, TX_mac, [5], 1⟩ (fun _ => rfl)
      (by decide) rfl).trans (by decide)⟩

/-- C4: for an admitted record whose payload holds `len` samples, the text written after
`Packet Data: ` and before the line terminator, split on comma-blank and read piece by
piece as signed decimal integers, gives back exactly the payload: `len` pieces, the same
values in the same order. -/
theorem payload_roundtrip (b : Board) (R : wifi_csi_info_t)
    (hmac : ∀ i : Fin 6, R.mac i = TX_mac i) (hpos : R.len > 0)
    (hbuf : R.buf.length = R.len) :
    (_csi_rx_cb b R).serial = b.serial ++
        (record_header b.packets R.rssi R.len ++ record_payload R.buf ++ line_end) ∧
      (split_comma_space (record_payload R.buf) []).length = R.len ∧
      parse_payload (record_payload R.buf) = some R.buf := by
  have hne : R.buf ≠ [] := by
    intro h
    rw [h] at hbuf
    simp at hbuf
    omega
  obtain ⟨h1, h2⟩ := parse_payload_record_payload R.buf hne
  refine ⟨?_, ?_, h2⟩
  · rw [csi_rx_cb_admitted b R ⟨hpos, hmac⟩ hbuf]
    rfl
  · rw [h1, List.length_map, hbuf]

/-- Event 1 of the scenario as an instance of C4: the payload text `1, -2, 127` reads
back as the three samples. -/
theorem payload_roundtrip_witness :
    record_payload event1.buf = "1, -2, 127".toList ∧
      parse_payload (record_payload event1.buf) = some [1, -2, 127] :=
  ⟨by decide, (payload_roundtrip power_on event1 (fun _ => rfl) (by decide) rfl).2.2⟩

/-- C3 as stated fails: after 4294967295 admitted records the counter holds 4294967295;
the next admitted record A is written with that number, and the record B admitted right
after it is written with 0, not with 4294967295 + 1. -/
theorem seq_plus_one_counterexample :
    (csi_events power_on (List.replicate 4294967295 event1)).packets = 4294967295 ∧
    (_csi_rx_cb (csi_events power_on (List.replicate 4294967295 event1)) event1).serial =
      (csi_events power_on (List.replicate 4294967295 event1)).serial ++
        record_line 4294967295 event1 ∧
    (_csi_rx_cb (_csi_rx_cb (csi_events power_on (List.replicate 4294967295 event1)) event1)
        event4).serial =
      (_csi_rx_cb (csi_events power_on (List.replicate 4294967295 event1)) event1).serial ++
        record_line 0 event4 ∧
    record_line 0 event4 ≠ record_line (4294967295 + 1) event4 := by
  have hadm1 : admitted event1 := by decide
  have hadm4 : admitted event4 := by decide
  have hp : (csi_events power_on (List.replicate 4294967295 event1)).packets = 4294967295 := by
    rw [csi_events_power_on_packets, admitted_count_replicate _ _ hadm1]
    decide
  refine ⟨hp, ?_, ?_, by decide⟩
  · rw [csi_rx_cb_admitted _ event1 hadm1 rfl, hp]
  · rw [csi_rx_cb_admitted _ event4 hadm4 rfl, csi_rx_cb_packets_admitted _ _ hadm1, hp]
    rfl

/-- C3, amended: starting from power-on, the first emitted record carries sequence number
0 however many rejected records precede it; for consecutively emitted records A then B,
with any number of rejected records between them, B carries (A.seq + 1) mod 2^32; the
counter advances by one (mod 2^32) on an admitted record and is left alone by a rejected
one, so after any sequence of records it equals the number of admitted ones mod 2^32. -/
theorem seq_numbers_consecutive_mod :
    (∀ (rej : List wifi_csi_info_t) (A : wifi_csi_info_t),
      (∀ r ∈ rej, ¬ admitted r) → admitted A →
      ∃ body, (_csi_rx_cb (csi_events power_on rej) A).serial =
        record_header 0 A.rssi A.len ++ body ++ line_end) ∧
    (∀ (pre rej : List wifi_csi_info_t) (A B : wifi_csi_info_t),
      admitted A → (∀ r ∈ rej, ¬ admitted r) → admitted B →
      ∃ bodyA bodyB,
        (_csi_rx_cb (csi_events power_on pre) A).serial =
          (csi_events power_on pre).serial ++
            (record_header (csi_events power_on pre).packets A.rssi A.len ++ bodyA ++
              line_end) ∧
        (_csi_rx_cb (csi_events (_csi_rx_cb (csi_events power_on pre) A) rej) B).serial =
          (_csi_rx_cb (csi_events power_on pre) A).serial ++
            (record_header (((csi_events power_on pre).packets + 1) % 2 ^ 32) B.rssi B.len ++
              bodyB ++ line_end)) ∧
    (∀ (b : Board) (R : wifi_csi_info_t), admitted R →
      (_csi_rx_cb b R).packets = (b.packets + 1) % 2 ^ 32) ∧
    (∀ (b : Board) (R : wifi_csi_info_t), ¬ admitted R →
      (_csi_rx_cb b R).packets = b.packets) ∧
    (∀ rs : List wifi_csi_info_t,
      (csi_events power_on rs).packets = admitted_count rs % 2 ^ 32) := by
  refine ⟨?_, ?_, fun b R h => csi_rx_cb_packets_admitted b R h,
    fun b R h => by rw [csi_rx_cb_rejected b R h], csi_events_power_on_packets⟩
  · intro rej A hrej hA
    obtain ⟨body, hb⟩ := csi_rx_cb_admitted_header power_on A hA
    refine ⟨body, ?_⟩
    rw [csi_events_rejected rej hrej, hb]
    rfl
  · intro pre rej A B hA hrej hB
    obtain ⟨bodyA, ha⟩ := csi_rx_cb_admitted_header (csi_events power_on pre) A hA
    obtain ⟨bodyB, hb⟩ := csi_rx_cb_admitted_header (_csi_rx_cb (csi_events power_on pre) A) B hB
    refine ⟨bodyA, bodyB, by rw [ha], ?_⟩
    rw [csi_events_rejected rej hrej, hb, csi_rx_cb_packets_admitted _ _ hA]
    rfl

/-- The scenario of the specification as an instance of amended C3: event 1 is written
with number 0; events 2 and 3 are rejected; event 4 is written with number 1. -/
theorem seq_numbers_consecutive_mod_witness :
    admitted event1 ∧ ¬ admitted event2 ∧ ¬ admitted event3 ∧ admitted event4 ∧
    ∃ bodyA bodyB,
      (_csi_rx_cb (csi_events power_on []) event1).serial =
        (csi_events power_on []).serial ++
          (record_header (csi_events power_on []).packets event1.rssi event1.len ++ bodyA ++
            line_end) ∧
      (_csi_rx_cb (csi_events (_csi_rx_cb (csi_events power_on []) event1) [event2, event3])
          event4).serial =
        (_csi_rx_cb (csi_events power_on []) event1).serial ++
          (record_header (((csi_events power_on []).packets + 1) % 2 ^ 32) event4.rssi
            event4.len ++ bodyB ++ line_end) :=
  ⟨by decide, by decide, by decide, by decide,
    seq_numbers_consecutive_mod.2.1 [] [event2, event3] event1 event4 (by decide)
      (by decide) (by decide)⟩

/-- C10: the counter is 32 bits wide, so the sequence number written for an admitted
record is the number of records admitted before it, reduced mod 2^32.  In particular the
record admitted after 2^32 - 1 earlier admissions is written with 4294967295 and leaves
the counter at 0, and the record admitted after 2^32 earlier admissions is written with
0, whose text differs from the one with 4294967296. -/
theorem seq_label_mod_two_pow_32 (pre : List wifi_csi_info_t) (R : wifi_csi_info_t)
    (h : admitted R) :
    (∃ body, (_csi_rx_cb (csi_events power_on pre) R).serial =
      (csi_events power_on pre).serial ++
        (record_header (admitted_count pre % 2 ^ 32) R.rssi R.len ++ body ++ line_end)) ∧
    (admitted_count pre = 4294967295 →
      (_csi_rx_cb (csi_events power_on pre) R).packets = 0 ∧
      ∃ body, (_csi_rx_cb (csi_events power_on pre) R).serial =
        (csi_events power_on pre).serial ++
          (record_header 4294967295 R.rssi R.len ++ body ++ line_end)) ∧
    (admitted_count pre = 4294967296 →
      ∃ body, (_csi_rx_cb (csi_events power_on pre) R).serial =
        (csi_events power_on pre).serial ++
          (record_header 0 R.rssi R.len ++ body ++ line_end)) ∧
    record_header 0 R.rssi R.len ≠ record_header 4294967296 R.rssi R.len := by
  obtain ⟨body, hb⟩ := csi_rx_cb_admitted_header (csi_events power_on pre) R h
  have hs : (_csi_rx_cb (csi_events power_on pre) R).serial =
      (csi_events power_on pre).serial ++
        (record_header (admitted_count pre % 2 ^ 32) R.rssi R.len ++ body ++ line_end) := by
    rw [hb, csi_events_power_on_packets]
  refine ⟨⟨body, hs⟩, ?_, ?_, record_header_zero_ne _ _⟩
  · intro hc
    refine ⟨?_, body, ?_⟩
    · rw [csi_rx_cb_packets_admitted _ _ h, csi_events_power_on_packets, hc]
      decide
    · rw [hs, hc]
      rfl
  · intro hc
    refine ⟨body, ?_⟩
    rw [hs, hc]
    rfl

/-- An instance of C10 at the wrap: after 4294967296 admissions of event 1, event 4 is
written with sequence number 0. -/
theorem seq_label_mod_two_pow_32_witness :
    admitted event4 ∧ admitted_count (List.replicate 4294967296 event1) = 4294967296 ∧
    ∃ body, (_csi_rx_cb (csi_events power_on (List.replicate 4294967296 event1)) event4).serial =
      (csi_events power_on (List.replicate 4294967296 event1)).serial ++
        (record_header 0 event4.rssi event4.len ++ body ++ line_end) :=
  ⟨by decide, admitted_count_replicate _ _ (by decide),
    (seq_label_mod_two_pow_32 (List.replicate 4294967296 event1) event4 (by decide)).2.2.1
      (admitted_count_replicate _ _ (by decide))⟩

/-! ## Facts about the wait loop -/

theorem wait_connected_done (env : Env) :
    ∀ (k fuel : Nat) (b : Board),
      (∀ j < k, env.status (b.polls + j) ≠ WL_CONNECTED) →
      env.status (b.polls + k) = WL_CONNECTED → k < fuel →
      wait_connected env fuel b = Outcome.done
        { packets := b.packets, serial := b.serial ++ List.replicate k '.',
          polls := b.polls + k + 1,
          trace := b.trace ++ wait_events env b.polls k ++
            [Event.WiFi_status WL_CONNECTED] } := by
  intro k
  induction k with
  | zero =>
    intro fuel b _ hk hf
    obtain ⟨f, rfl⟩ : ∃ f, fuel = f + 1 := ⟨fuel - 1, by omega⟩
    have hk0 : env.status b.polls = WL_CONNECTED := by simpa using hk
    simp [wait_connected, WiFi_status, emit, hk0, wait_events]
  | succ k ih =>
    intro fuel b hmin hk hf
    obtain ⟨f, rfl⟩ : ∃ f, fuel = f + 1 := ⟨fuel - 1, by omega⟩
    have h0 : env.status b.polls ≠ WL_CONNECTED := by simpa using hmin 0 (by omega)
    rw [wait_connected]
    simp only [WiFi_status]
    rw [if_pos h0, ih f]
    · simp [Serial_print, delay, emit, wait_events, List.replicate_succ, Nat.add_assoc,
        Nat.add_comm 1 k]
    · intro j hj
      have := hmin (j + 1) (by omega)
      simpa [Serial_print, delay, emit, Nat.add_assoc, Nat.add_comm 1 j] using this
    · simpa [Serial_print, delay, emit, Nat.add_assoc, Nat.add_comm 1 k] using hk
    · omega

theorem wait_connected_waiting (env : Env) :
    ∀ (fuel : Nat) (b : Board),
      (∀ j < fuel, env.status (b.polls + j) ≠ WL_CONNECTED) →
      wait_connected env fuel b = Outcome.waiting
        { packets := b.packets, serial := b.serial ++ List.replicate fuel '.',
          polls := b.polls + fuel,
          trace := b.trace ++ wait_events env b.polls fuel } := by
  intro fuel
  induction fuel with
  | zero =>
    intro b _
    simp [wait_connected, wait_events]
  | succ f ih =>
    intro b hmin
    have h0 : env.status b.polls ≠ WL_CONNECTED := by simpa using hmin 0 (by omega)
    rw [wait_connected]
    simp only [WiFi_status]
    rw [if_pos h0, ih]
    · simp [Serial_print, delay, emit, wait_events, List.replicate_succ, Nat.add_assoc,
        Nat.add_comm 1 f]
    · intro j hj
      have := hmin (j + 1) (by omega)
      simpa [Serial_print, delay, emit, Nat.add_assoc, Nat.add_comm 1 j] using this

theorem wait_cases (env : Env) (p fuel : Nat) :
    (∃ k, k < fuel ∧ (∀ j < k, env.status (p + j) ≠ WL_CONNECTED) ∧
      env.status (p + k) = WL_CONNECTED) ∨
    (∀ j < fuel, env.status (p + j) ≠ WL_CONNECTED) := by
  by_cases h : ∃ k, k < fuel ∧ env.status (p + k) = WL_CONNECTED
  · left
    refine ⟨Nat.find h, (Nat.find_spec h).1, ?_, (Nat.find_spec h).2⟩
    intro j hj hc
    exact Nat.find_min h hj ⟨lt_trans hj (Nat.find_spec h).1, hc⟩
  · right
    intro j hj hc
    exact h ⟨j, hj, hc⟩

theorem first_connected (env : Env) (p : Nat) (h : ∃ m, env.status (p + m) = WL_CONNECTED) :
    ∃ k, (∀ j < k, env.status (p + j) ≠ WL_CONNECTED) ∧ env.status (p + k) = WL_CONNECTED :=
  ⟨Nat.find h, fun _ hj hc => Nat.find_min h hj hc, Nat.find_spec h⟩

theorem wait_events_no_csi (env : Env) (k : Nat) :
    ∀ p, (wait_events env p k).filter is_csi_call = [] := by
  induction k with
  | zero => intro p; rfl
  | succ k ih => intro p; simp [wait_events, is_csi_call, ih]

theorem wait_events_no_assoc (env : Env) (k : Nat) :
    ∀ p, (wait_events env p k).filter is_assoc_call = [] := by
  induction k with
  | zero => intro p; rfl
  | succ k ih => intro p; simp [wait_events, is_assoc_call, ih]

theorem wait_events_no_udp (env : Env) (k : Nat) :
    ∀ p, (wait_events env p k).filter is_udp_call = [] := by
  induction k with
  | zero => intro p; rfl
  | succ k ih => intro p; simp [wait_events, is_udp_call, ih]

theorem datagrams_from_no_udp (es : List Event) :
    ∀ st, es.filter is_udp_call = [] → datagrams_from st es = [] := by
  induction es with
  | nil => intro st _; cases st <;> rfl
  | cons e es ih =>
    intro st h
    have he : is_udp_call e = false := by
      by_contra hc
      simp [List.filter_cons, hc] at h
    have hes : es.filter is_udp_call = [] := by
      simpa [List.filter_cons, he] using h
    cases e <;> first
      | (simp [is_udp_call] at he; done)
      | (cases st <;> simp [datagrams_from, ih _ hes])

/-! ## Facts about `loop()` -/

theorem loop_connected (env : Env) (fuel : Nat) (b : Board)
    (h : env.status b.polls = WL_CONNECTED) :
    loop env fuel b = Outcome.done
      { packets := b.packets, serial := b.serial, polls := b.polls + 1,
        trace := b.trace ++ [Event.WiFi_status WL_CONNECTED,
          Event.udp_beginPacket "192.168.4.1" 8080, Event.udp_print ['0'],
          Event.udp_endPacket, Event.delay 15] } := by
  have h0 : print_long 0 = ['0'] := by decide
  simp [loop, WiFi_status, h, emit, delay, target_ip, target_port, h0]

theorem loop_reconnect_done (env : Env) (fuel k : Nat) (b : Board)
    (h0 : env.status b.polls ≠ WL_CONNECTED)
    (hmin : ∀ j < k, env.status (b.polls + 1 + j) ≠ WL_CONNECTED)
    (hk : env.status (b.polls + 1 + k) = WL_CONNECTED) (hf : k < fuel) :
    loop env fuel b = Outcome.done
      { packets := b.packets,
        serial := b.serial ++ "Connection lost. Reconnecting...".toList ++
          List.replicate k '.' ++ "\nReconnected.".toList ++ line_end,
        polls := b.polls + 1 + k + 1,
        trace := b.trace ++ ([Event.WiFi_status (env.status b.polls), Event.WiFi_disconnect,
          Event.WiFi_begin ssid password] ++ wait_events env (b.polls + 1) k ++
          [Event.WiFi_status WL_CONNECTED, Event.delay 15]) } := by
  unfold loop
  simp only [WiFi_status]
  rw [if_pos h0, wait_connected_done env k fuel _ (by simpa [Serial_print, emit] using hmin)
    (by simpa [Serial_print, emit] using hk) hf]
  simp [Serial_println, Serial_print, emit, delay, List.append_assoc]

theorem loop_reconnect_waiting (env : Env) (fuel : Nat) (b : Board)
    (h0 : env.status b.polls ≠ WL_CONNECTED)
    (hmin : ∀ j < fuel, env.status (b.polls + 1 + j) ≠ WL_CONNECTED) :
    loop env fuel b = Outcome.waiting
      { packets := b.packets,
        serial := b.serial ++ "Connection lost. Reconnecting...".toList ++
          List.replicate fuel '.',
        polls := b.polls + 1 + fuel,
        trace := b.trace ++ ([Event.WiFi_status (env.status b.polls), Event.WiFi_disconnect,
          Event.WiFi_begin ssid password] ++ wait_events env (b.polls + 1) fuel) } := by
  unfold loop
  simp only [WiFi_status]
  rw [if_pos h0, wait_connected_waiting env fuel _ (by simpa [Serial_print, emit] using hmin)]
  simp [Serial_print, emit, List.append_assoc]

/-! ## Claims about `loop()` -/

/-- C5: in an iteration of `loop()` whose status poll reports `WL_CONNECTED`, the calls
made are the poll, `beginPacket` to 192.168.4.1 port 8080, one `print` of the single
character `0`, `endPacket` and the final delay: exactly one datagram, to that address and
port, with a payload one byte long.  In an iteration whose poll reports anything else, no
call on the UDP object is made and no datagram is sent, however far the iteration gets
(still waiting, or finished after the reconnection wait). -/
theorem loop_liveness_datagram (env : Env) (fuel : Nat) (b : Board) :
    (env.status b.polls = WL_CONNECTED →
      ∃ b1 evs, loop env fuel b = Outcome.done b1 ∧ b1.trace = b.trace ++ evs ∧
        evs = [Event.WiFi_status WL_CONNECTED, Event.udp_beginPacket "192.168.4.1" 8080,
          Event.udp_print ['0'], Event.udp_endPacket, Event.delay 15] ∧
        datagrams evs = [⟨"192.168.4.1", 8080, ['0']⟩] ∧
        ∀ d ∈ datagrams evs, d.payload.length = 1) ∧
    (env.status b.polls ≠ WL_CONNECTED →
      ∃ evs, (loop env fuel b).board.trace = b.trace ++ evs ∧
        evs.filter is_udp_call = [] ∧ datagrams evs = []) := by
  constructor
  · intro h
    refine ⟨_, _, loop_connected env fuel b h, rfl, rfl, by decide, by decide⟩
  · intro h0
    rcases wait_cases env (b.polls + 1) fuel with ⟨k, hf, hmin, hk⟩ | hmin
    · rw [loop_reconnect_done env fuel k b h0 hmin hk hf]
      have hno : ([Event.WiFi_status (env.status b.polls), Event.WiFi_disconnect,
          Event.WiFi_begin ssid password] ++ wait_events env (b.polls + 1) k ++
          [Event.WiFi_status WL_CONNECTED, Event.delay 15]).filter is_udp_call = [] := by
        simp [List.filter_append, wait_events_no_udp, is_udp_call]
      exact ⟨_, rfl, hno, datagrams_from_no_udp _ _ hno⟩
    · rw [loop_reconnect_waiting env fuel b h0 hmin]
      have hno : ([Event.WiFi_status (env.status b.polls), Event.WiFi_disconnect,
          Event.WiFi_begin ssid password] ++
          wait_events env (b.polls + 1) fuel).filter is_udp_call = [] := by
        simp [List.filter_append, wait_events_no_udp, is_udp_call]
      exact ⟨_, rfl, hno, datagrams_from_no_udp _ _ hno⟩

/-- Two iterations as instances of C5: with the link up at once the iteration sends the
one-byte datagram; with the link down for the first three polls it sends none. -/
theorem loop_liveness_datagram_witness :
    (env_up_after 0).status power_on.polls = WL_CONNECTED ∧
    (∃ b1 evs, loop (env_up_after 0) 5 power_on = Outcome.done b1 ∧
      b1.trace = power_on.trace ++ evs ∧
      evs = [Event.WiFi_status WL_CONNECTED, Event.udp_beginPacket "192.168.4.1" 8080,
        Event.udp_print ['0'], Event.udp_endPacket, Event.delay 15] ∧
      datagrams evs = [⟨"192.168.4.1", 8080, ['0']⟩] ∧
      ∀ d ∈ datagrams evs, d.payload.length = 1) ∧
    (env_up_after 3).status power_on.polls ≠ WL_CONNECTED ∧
    (∃ evs, (loop (env_up_after 3) 5 power_on).board.trace = power_on.trace ++ evs ∧
      evs.filter is_udp_call = [] ∧ datagrams evs = []) :=
  ⟨by decide, (loop_liveness_datagram (env_up_after 0) 5 power_on).1 (by decide),
    by decide, (loop_liveness_datagram (env_up_after 3) 5 power_on).2 (by decide)⟩

/-- C6: take an iteration of `loop()` whose status poll reports not connected, with a
later poll that reports `WL_CONNECTED`, the first such being `k` polls into the wait.
Given room for more than `k` polls the iteration finishes, and the calls it made are: the
first poll, one disconnect, one connect request with the configured SSID and password,
`k` rounds of poll-and-delay, the poll answered `WL_CONNECTED`, the final delay.  Given
room for `k` polls or fewer it is still waiting, having made the same single disconnect
and connect request.  An iteration whose poll reports `WL_CONNECTED` finishes without a
disconnect or a connect request. -/
theorem loop_reconnects_once (env : Env) (b : Board) :
    (env.status b.polls ≠ WL_CONNECTED →
      (∃ m, env.status (b.polls + 1 + m) = WL_CONNECTED) →
      ∃ k b1 evs,
        env.status (b.polls + 1 + k) = WL_CONNECTED ∧
        (∀ j < k, env.status (b.polls + 1 + j) ≠ WL_CONNECTED) ∧
        (∀ fuel, k < fuel → loop env fuel b = Outcome.done b1) ∧
        b1.polls = b.polls + 1 + k + 1 ∧
        b1.trace = b.trace ++ evs ∧
        evs = [Event.WiFi_status (env.status b.polls), Event.WiFi_disconnect,
          Event.WiFi_begin "CSI_PROJECT_NETWORK" "passwordhardlikeassembly"] ++
          wait_events env (b.polls + 1) k ++
          [Event.WiFi_status WL_CONNECTED, Event.delay 15] ∧
        evs.filter is_assoc_call = [Event.WiFi_disconnect,
          Event.WiFi_begin "CSI_PROJECT_NETWORK" "passwordhardlikeassembly"] ∧
        (∀ fuel, fuel ≤ k → ∃ w pending, loop env fuel b = Outcome.waiting w ∧
          w.trace = b.trace ++ pending ∧
          pending.filter is_assoc_call = [Event.WiFi_disconnect,
            Event.WiFi_begin "CSI_PROJECT_NETWORK" "passwordhardlikeassembly"])) ∧
    (env.status b.polls = WL_CONNECTED →
      ∀ fuel, ∃ b1 evs, loop env fuel b = Outcome.done b1 ∧ b1.trace = b.trace ++ evs ∧
        evs.filter is_assoc_call = []) := by
  constructor
  · intro h0 hev
    obtain ⟨k, hmin, hk⟩ := first_connected env (b.polls + 1) hev
    refine ⟨k, _, _, hk, hmin, fun fuel hf => loop_reconnect_done env fuel k b h0 hmin hk hf,
      rfl, rfl, rfl, ?_, ?_⟩
    · simp [List.filter_append, wait_events_no_assoc, is_assoc_call, ssid, password]
    · intro fuel hf
      refine ⟨_, _, loop_reconnect_waiting env fuel b h0
        (fun j hj => hmin j (lt_of_lt_of_le hj hf)), rfl, ?_⟩
      simp [List.filter_append, wait_events_no_assoc, is_assoc_call, ssid, password]
  · intro h fuel
    exact ⟨_, _, loop_connected env fuel b h, rfl, by decide⟩

/-- An instance of C6: the link is down for the first three polls; the iteration that
starts at power-on disconnects once, reconnects once and finishes after two rounds of
waiting, at the poll that reports `WL_CONNECTED`. -/
theorem loop_reconnects_once_witness :
    (env_up_after 3).status power_on.polls ≠ WL_CONNECTED ∧
    (∃ m, (env_up_after 3).status (power_on.polls + 1 + m) = WL_CONNECTED) ∧
    loop (env_up_after 3) 3 power_on = Outcome.done
      ⟨0, "Connection lost. Reconnecting.....\nReconnected.\r\n".toList, 4,
        [Event.WiFi_status WL_DISCONNECTED, Event.WiFi_disconnect,
          Event.WiFi_begin "CSI_PROJECT_NETWORK" "passwordhardlikeassembly",
          Event.WiFi_status WL_DISCONNECTED, Event.delay 500,
          Event.WiFi_status WL_DISCONNECTED, Event.delay 500,
          Event.WiFi_status WL_CONNECTED, Event.delay 15]⟩ ∧
    ∃ k b1 evs,
      (env_up_after 3).status (power_on.polls + 1 + k) = WL_CONNECTED ∧
      (∀ j < k, (env_up_after 3).status (power_on.polls + 1 + j) ≠ WL_CONNECTED) ∧
      (∀ fuel, k < fuel → loop (env_up_after 3) fuel power_on = Outcome.done b1) ∧
      b1.polls = power_on.polls + 1 + k + 1 ∧
      b1.trace = power_on.trace ++ evs ∧
      evs = [Event.WiFi_status ((env_up_after 3).status power_on.polls),
        Event.WiFi_disconnect,
        Event.WiFi_begin "CSI_PROJECT_NETWORK" "passwordhardlikeassembly"] ++
        wait_events (env_up_after 3) (power_on.polls + 1) k ++
        [Event.WiFi_status WL_CONNECTED, Event.delay 15] ∧
      evs.filter is_assoc_call = [Event.WiFi_disconnect,
        Event.WiFi_begin "CSI_PROJECT_NETWORK" "passwordhardlikeassembly"] ∧
      (∀ fuel, fuel ≤ k → ∃ w pending,
        loop (env_up_after 3) fuel power_on = Outcome.waiting w ∧
        w.trace = power_on.trace ++ pending ∧
        pending.filter is_assoc_call = [Event.WiFi_disconnect,
          Event.WiFi_begin "CSI_PROJECT_NETWORK" "passwordhardlikeassembly"]) :=
  ⟨by decide, ⟨2, by decide⟩, by decide,
    (loop_reconnects_once (env_up_after 3) power_on).1 (by decide) ⟨2, by decide⟩⟩

/-! ## Facts about `setup()` -/

theorem setup_waiting (env : Env) (fuel : Nat)
    (hmin : ∀ j < fuel, env.status j ≠ WL_CONNECTED) :
    setup env fuel power_on = Outcome.waiting
      { packets := 0, serial := "Connecting...".toList ++ List.replicate fuel '.',
        polls := fuel,
        trace := [Event.Serial_begin 921600, Event.WiFi_mode_STA, Event.esp_wifi_set_ps_NONE,
          Event.WiFi_begin ssid password] ++ wait_events env 0 fuel } := by
  unfold setup
  simp only []
  rw [wait_connected_waiting env fuel _
    (by simpa [Serial_print, emit, power_on] using hmin)]
  simp [Serial_print, emit, power_on, BAUDRATE]

theorem setup_connected (env : Env) (fuel k : Nat)
    (hmin : ∀ j < k, env.status j ≠ WL_CONNECTED) (hk : env.status k = WL_CONNECTED)
    (hf : k < fuel) :
    setup env fuel power_on =
      ESP_ERROR_CHECK env.set_csi_ret
        { packets := 0,
          serial := "Connecting...".toList ++ List.replicate k '.' ++
            "\nConnected.".toList ++ line_end,
          polls := k + 1,
          trace := [Event.Serial_begin 921600, Event.WiFi_mode_STA,
            Event.esp_wifi_set_ps_NONE, Event.WiFi_begin ssid password] ++
            wait_events env 0 k ++
            [Event.WiFi_status WL_CONNECTED, Event.esp_wifi_set_csi true] }
        (fun b => ESP_ERROR_CHECK env.set_csi_config_ret
          (emit (Event.esp_wifi_set_csi_config configuration) b)
          (fun b => ESP_ERROR_CHECK env.set_csi_rx_cb_ret
            (emit (Event.esp_wifi_set_csi_rx_cb csi_cb_t.csi_rx_cb) b)
            (fun b => Outcome.done b))) := by
  unfold setup
  simp only []
  rw [wait_connected_done env k fuel _
    (by simpa [Serial_print, emit, power_on] using hmin)
    (by simpa [Serial_print, emit, power_on] using hk) hf]
  simp [Serial_println, Serial_print, emit, power_on, BAUDRATE, List.append_assoc]

theorem configuration_eq : configuration = ⟨1, 1, 1, 1, 0, 0, 0⟩ := rfl

theorem setup_done_trace (env : Env) (fuel : Nat) (b1 : Board)
    (h : setup env fuel power_on = Outcome.done b1) :
    ∃ k, k < fuel ∧ (∀ j < k, env.status j ≠ WL_CONNECTED) ∧ env.status k = WL_CONNECTED ∧
      b1.trace = [Event.Serial_begin 921600, Event.WiFi_mode_STA,
        Event.esp_wifi_set_ps_NONE, Event.WiFi_begin ssid password] ++
        wait_events env 0 k ++
        [Event.WiFi_status WL_CONNECTED, Event.esp_wifi_set_csi true,
          Event.esp_wifi_set_csi_config configuration,
          Event.esp_wifi_set_csi_rx_cb csi_cb_t.csi_rx_cb] := by
  rcases wait_cases env 0 fuel with ⟨k, hf, hmin, hk⟩ | hmin
  · have hmin1 : ∀ j < k, env.status j ≠ WL_CONNECTED := by simpa using hmin
    have hk1 : env.status k = WL_CONNECTED := by simpa using hk
    refine ⟨k, hf, hmin1, hk1, ?_⟩
    rw [setup_connected env fuel k hmin1 hk1 hf] at h
    unfold ESP_ERROR_CHECK at h
    split at h
    · exact absurd h (by simp)
    · split at h
      · exact absurd h (by simp)
      · split at h
        · exact absurd h (by simp)
        · have hb := Outcome.done.inj h
          rw [← hb]
          simp [emit, List.append_assoc]
  · have hmin1 : ∀ j < fuel, env.status j ≠ WL_CONNECTED := by simpa using hmin
    rw [setup_waiting env fuel hmin1] at h
    exact absurd h (by simp)

/-! ## Claims about `setup()` and CSI activation -/

/-- C7 as stated fails: the link reports `WL_CONNECTED` at the first poll, but the driver
refuses `esp_wifi_set_csi`; `ESP_ERROR_CHECK` aborts, and `setup()` has neither applied
the configuration nor registered the callback. -/
theorem setup_csi_refused_counterexample :
    env_csi_refused.status 0 = WL_CONNECTED ∧
    setup env_csi_refused 1 power_on = Outcome.aborted
      ⟨0, "Connecting...\nConnected.\r\n".toList, 1,
        [Event.Serial_begin 921600, Event.WiFi_mode_STA, Event.esp_wifi_set_ps_NONE,
          Event.WiFi_begin "CSI_PROJECT_NETWORK" "passwordhardlikeassembly",
          Event.WiFi_status WL_CONNECTED, Event.esp_wifi_set_csi true]⟩ ∧
    (∀ fuel, 0 < fuel →
      (setup env_csi_refused fuel power_on).board.trace.filter is_csi_call =
        [Event.esp_wifi_set_csi true]) := by
  refine ⟨rfl, by decide, ?_⟩
  intro fuel hf
  rw [setup_connected env_csi_refused fuel 0 (fun j hj => absurd hj (Nat.not_lt_zero j)) rfl hf]
  simp [ESP_ERROR_CHECK, env_csi_refused, ESP_FAIL, ESP_OK, Outcome.board, wait_events,
    is_csi_call]

/-- C7, amended: for every status sequence that eventually reports `WL_CONNECTED`, and
provided the driver answers `ESP_OK` to the three calls, `setup()` finishes (given room
for the polls it needs) and has performed CSI activation exactly once, after the poll that
reported `WL_CONNECTED`: enable, then the configuration with the four training-field
options on and channel filter, manual scale and shift zero, then the registration of
`_csi_rx_cb`.  As long as no poll has reported `WL_CONNECTED`, `setup()` is still waiting
and has made none of these calls. -/
theorem setup_activates_csi_once (env : Env)
    (hev : ∃ m, env.status m = WL_CONNECTED)
    (hok : env.set_csi_ret = ESP_OK ∧ env.set_csi_config_ret = ESP_OK ∧
      env.set_csi_rx_cb_ret = ESP_OK) :
    ∃ k b1,
      env.status k = WL_CONNECTED ∧ (∀ j < k, env.status j ≠ WL_CONNECTED) ∧
      (∀ fuel, k < fuel → setup env fuel power_on = Outcome.done b1) ∧
      b1.trace = [Event.Serial_begin 921600, Event.WiFi_mode_STA,
          Event.esp_wifi_set_ps_NONE,
          Event.WiFi_begin "CSI_PROJECT_NETWORK" "passwordhardlikeassembly"] ++
        wait_events env 0 k ++
        [Event.WiFi_status WL_CONNECTED, Event.esp_wifi_set_csi true,
          Event.esp_wifi_set_csi_config ⟨1, 1, 1, 1, 0, 0, 0⟩,
          Event.esp_wifi_set_csi_rx_cb csi_cb_t.csi_rx_cb] ∧
      b1.trace.filter is_csi_call = [Event.esp_wifi_set_csi true,
          Event.esp_wifi_set_csi_config ⟨1, 1, 1, 1, 0, 0, 0⟩,
          Event.esp_wifi_set_csi_rx_cb csi_cb_t.csi_rx_cb] ∧
      (∀ fuel, fuel ≤ k → ∃ w, setup env fuel power_on = Outcome.waiting w ∧
        w.trace.filter is_csi_call = []) := by
  obtain ⟨k, hmin, hk⟩ := first_connected env 0 (by simpa using hev)
  have hmin1 : ∀ j < k, env.status j ≠ WL_CONNECTED := by simpa using hmin
  have hk1 : env.status k = WL_CONNECTED := by simpa using hk
  obtain ⟨h1, h2, h3⟩ := hok
  refine ⟨k, ⟨0, "Connecting...".toList ++ List.replicate k '.' ++
      "\nConnected.".toList ++ line_end, k + 1,
      [Event.Serial_begin 921600, Event.WiFi_mode_STA, Event.esp_wifi_set_ps_NONE,
        Event.WiFi_begin "CSI_PROJECT_NETWORK" "passwordhardlikeassembly"] ++
      wait_events env 0 k ++
      [Event.WiFi_status WL_CONNECTED, Event.esp_wifi_set_csi true,
        Event.esp_wifi_set_csi_config ⟨1, 1, 1, 1, 0, 0, 0⟩,
        Event.esp_wifi_set_csi_rx_cb csi_cb_t.csi_rx_cb]⟩, hk1, hmin1, ?_, rfl, ?_, ?_⟩
  · intro fuel hf
    rw [setup_connected env fuel k hmin1 hk1 hf]
    simp only [ESP_ERROR_CHECK, h1, h2, h3, ne_eq, not_true_eq_false, if_false]
    simp [emit, List.append_assoc, ssid, password, configuration_eq]
  · simp [List.filter_append, wait_events_no_csi, is_csi_call]
  · intro fuel hf
    refine ⟨_, setup_waiting env fuel (fun j hj => hmin1 j (lt_of_lt_of_le hj hf)), ?_⟩
    simp [List.filter_append, wait_events_no_csi, is_csi_call]

/-- An instance of amended C7: the link is down for two polls and up at the third, the
driver accepts every call; `setup()` activates CSI once, after the connected poll. -/
theorem setup_activates_csi_once_witness :
    (∃ m, (env_up_after 2).status m = WL_CONNECTED) ∧
    ((env_up_after 2).set_csi_ret = ESP_OK ∧ (env_up_after 2).set_csi_config_ret = ESP_OK ∧
      (env_up_after 2).set_csi_rx_cb_ret = ESP_OK) ∧
    (setup (env_up_after 2) 3 power_on).board.trace =
      [Event.Serial_begin 921600, Event.WiFi_mode_STA, Event.esp_wifi_set_ps_NONE,
        Event.WiFi_begin "CSI_PROJECT_NETWORK" "passwordhardlikeassembly",
        Event.WiFi_status WL_DISCONNECTED, Event.delay 500,
        Event.WiFi_status WL_DISCONNECTED, Event.delay 500,
        Event.WiFi_status WL_CONNECTED, Event.esp_wifi_set_csi true,
        Event.esp_wifi_set_csi_config ⟨1, 1, 1, 1, 0, 0, 0⟩,
        Event.esp_wifi_set_csi_rx_cb csi_cb_t.csi_rx_cb] ∧
    ∃ k b1,
      (env_up_after 2).status k = WL_CONNECTED ∧
      (∀ j < k, (env_up_after 2).status j ≠ WL_CONNECTED) ∧
      (∀ fuel, k < fuel → setup (env_up_after 2) fuel power_on = Outcome.done b1) ∧
      b1.trace = [Event.Serial_begin 921600, Event.WiFi_mode_STA,
          Event.esp_wifi_set_ps_NONE,
          Event.WiFi_begin "CSI_PROJECT_NETWORK" "passwordhardlikeassembly"] ++
        wait_events (env_up_after 2) 0 k ++
        [Event.WiFi_status WL_CONNECTED, Event.esp_wifi_set_csi true,
          Event.esp_wifi_set_csi_config ⟨1, 1, 1, 1, 0, 0, 0⟩,
          Event.esp_wifi_set_csi_rx_cb csi_cb_t.csi_rx_cb] ∧
      b1.trace.filter is_csi_call = [Event.esp_wifi_set_csi true,
          Event.esp_wifi_set_csi_config ⟨1, 1, 1, 1, 0, 0, 0⟩,
          Event.esp_wifi_set_csi_rx_cb csi_cb_t.csi_rx_cb] ∧
      (∀ fuel, fuel ≤ k → ∃ w, setup (env_up_after 2) fuel power_on = Outcome.waiting w ∧
        w.trace.filter is_csi_call = []) :=
  ⟨⟨2, by decide⟩, ⟨rfl, rfl, rfl⟩, by decide,
    setup_activates_csi_once (env_up_after 2) ⟨2, by decide⟩ ⟨rfl, rfl, rfl⟩⟩

/-! ## Facts about whole runs -/

theorem csi_rx_cb_trace (b : Board) (R : wifi_csi_info_t) :
    (_csi_rx_cb b R).trace = b.trace := by
  by_cases h : admitted R
  · obtain ⟨body, hb⟩ := csi_rx_cb_admitted_header b R h
    rw [hb]
  · rw [csi_rx_cb_rejected b R h]

theorem csi_events_trace (rs : List wifi_csi_info_t) :
    ∀ b : Board, (csi_events b rs).trace = b.trace := by
  induction rs with
  | nil => intro b; rfl
  | cons r rs ih =>
    intro b
    show (csi_events (_csi_rx_cb b r) rs).trace = b.trace
    rw [ih, csi_rx_cb_trace]

theorem loop_trace_no_csi (env : Env) (fuel : Nat) (b : Board) :
    ∃ evs, (loop env fuel b).board.trace = b.trace ++ evs ∧
      evs.filter is_csi_call = [] := by
  by_cases h : env.status b.polls = WL_CONNECTED
  · rw [loop_connected env fuel b h]
    exact ⟨_, rfl, by decide⟩
  · rcases wait_cases env (b.polls + 1) fuel with ⟨k, hf, hmin, hk⟩ | hmin
    · rw [loop_reconnect_done env fuel k b h hmin hk hf]
      exact ⟨_, rfl, by simp [List.filter_append, wait_events_no_csi, is_csi_call]⟩
    · rw [loop_reconnect_waiting env fuel b h hmin]
      exact ⟨_, rfl, by simp [List.filter_append, wait_events_no_csi, is_csi_call]⟩

theorem run_loops_trace_no_csi (env : Env) (fuel : Nat) (ds : List (List wifi_csi_info_t)) :
    ∀ b : Board, ∃ evs, (run_loops env fuel ds b).board.trace = b.trace ++ evs ∧
      evs.filter is_csi_call = [] := by
  induction ds with
  | nil => intro b; exact ⟨[], by simp [run_loops, Outcome.board], rfl⟩
  | cons rs rest ih =>
    intro b
    obtain ⟨evs, h1, h2⟩ := loop_trace_no_csi env fuel (csi_events b rs)
    rw [csi_events_trace] at h1
    rw [run_loops]
    cases hL : loop env fuel (csi_events b rs) with
    | done b1 =>
      rw [hL] at h1
      obtain ⟨evs2, h3, h4⟩ := ih b1
      refine ⟨evs ++ evs2, ?_, by rw [List.filter_append, h2, h4]; rfl⟩
      show (run_loops env fuel rest b1).board.trace = _
      rw [h3]
      show b1.trace ++ evs2 = _
      have : b1.trace = b.trace ++ evs := h1
      rw [this, List.append_assoc]
    | aborted b1 =>
      rw [hL] at h1
      exact ⟨evs, h1, h2⟩
    | waiting b1 =>
      rw [hL] at h1
      exact ⟨evs, h1, h2⟩

theorem setup_csi_calls (env : Env) (fuel : Nat) :
    ∃ rest, (setup env fuel power_on).board.trace.filter is_csi_call ++ rest =
      [Event.esp_wifi_set_csi true, Event.esp_wifi_set_csi_config ⟨1, 1, 1, 1, 0, 0, 0⟩,
        Event.esp_wifi_set_csi_rx_cb csi_cb_t.csi_rx_cb] := by
  rcases wait_cases env 0 fuel with ⟨k, hf, hmin, hk⟩ | hmin
  · have hmin1 : ∀ j < k, env.status j ≠ WL_CONNECTED := by simpa using hmin
    have hk1 : env.status k = WL_CONNECTED := by simpa using hk
    rw [setup_connected env fuel k hmin1 hk1 hf]
    unfold ESP_ERROR_CHECK
    split
    · exact ⟨[Event.esp_wifi_set_csi_config ⟨1, 1, 1, 1, 0, 0, 0⟩,
        Event.esp_wifi_set_csi_rx_cb csi_cb_t.csi_rx_cb], by
        simp [Outcome.board, List.filter_append, wait_events_no_csi, is_csi_call]⟩
    · split
      · exact ⟨[Event.esp_wifi_set_csi_rx_cb csi_cb_t.csi_rx_cb], by
          simp [Outcome.board, emit, List.filter_append, wait_events_no_csi, is_csi_call,
            configuration_eq]⟩
      · split
        · exact ⟨[], by
            simp [Outcome.board, emit, List.filter_append, wait_events_no_csi, is_csi_call,
              configuration_eq]⟩
        · exact ⟨[], by
            simp [Outcome.board, emit, List.filter_append, wait_events_no_csi, is_csi_call,
              configuration_eq]⟩
  · have hmin1 : ∀ j < fuel, env.status j ≠ WL_CONNECTED := by simpa using hmin
    rw [setup_waiting env fuel hmin1]
    exact ⟨[Event.esp_wifi_set_csi true, Event.esp_wifi_set_csi_config ⟨1, 1, 1, 1, 0, 0, 0⟩,
        Event.esp_wifi_set_csi_rx_cb csi_cb_t.csi_rx_cb], by
      simp [Outcome.board, List.filter_append, wait_events_no_csi, is_csi_call]⟩

/-- C8 as stated fails on its closing clause: in the run where the link is up at once but
the driver refuses `esp_wifi_set_csi`, `setup()` is aborted by `ESP_ERROR_CHECK` and the
whole run contains the enable call only, with no configuration and no callback
registration; in the run where the link never comes up, `setup()` never leaves its wait
loop and the run contains no CSI call at all.  Neither run has the three effects once
each. -/
theorem csi_run_exactly_once_counterexample :
    (sketch env_csi_refused 4 [[event1], [event4]]).board.trace.filter is_csi_call =
      [Event.esp_wifi_set_csi true] ∧
    (∀ (fuel : Nat) (deliveries : List (List wifi_csi_info_t)), 0 < fuel →
      (sketch env_csi_refused fuel deliveries).board.trace.filter is_csi_call =
        [Event.esp_wifi_set_csi true]) ∧
    (∀ (fuel : Nat) (deliveries : List (List wifi_csi_info_t)),
      (sketch env_never_up fuel deliveries).board.trace.filter is_csi_call = []) := by
  refine ⟨by decide, ?_, ?_⟩
  · intro fuel ds hf
    unfold sketch
    rw [setup_connected env_csi_refused fuel 0 (fun j hj => absurd hj (Nat.not_lt_zero j))
      rfl hf]
    simp [ESP_ERROR_CHECK, env_csi_refused, ESP_FAIL, ESP_OK, Outcome.board, wait_events,
      is_csi_call]
  · intro fuel ds
    unfold sketch
    have hdown : ∀ j < fuel, env_never_up.status j ≠ WL_CONNECTED :=
      fun _ _ => (by decide : WL_DISCONNECTED ≠ WL_CONNECTED)
    rw [setup_waiting env_never_up fuel hdown]
    simp [Outcome.board, List.filter_append, wait_events_no_csi, is_csi_call]

/-- C8, amended: no iteration of `loop()` makes a CSI call, whatever the link reports and
however far the iteration gets, the reconnection path included; the callback makes no
call at all.  Hence in every run in which `setup()` has returned, followed by any number
of `loop()` iterations with CSI records delivered in between, the CSI calls of the whole
run are the three made by `setup()`: enable, configuration, callback registration, once
each.  In every run whatsoever, a run whose `setup()` is still waiting for the link or
was aborted included, the CSI calls are an initial part of these three, so each of them
occurs at most once. -/
theorem csi_activation_not_repeated (env : Env) (fuel : Nat) :
    (∀ b : Board, ∃ evs, (loop env fuel b).board.trace = b.trace ++ evs ∧
      evs.filter is_csi_call = []) ∧
    (∀ (b : Board) (R : wifi_csi_info_t), (_csi_rx_cb b R).trace = b.trace) ∧
    (∀ (deliveries : List (List wifi_csi_info_t)) (b1 : Board),
      setup env fuel power_on = Outcome.done b1 →
      (sketch env fuel deliveries).board.trace.filter is_csi_call =
        [Event.esp_wifi_set_csi true, Event.esp_wifi_set_csi_config ⟨1, 1, 1, 1, 0, 0, 0⟩,
          Event.esp_wifi_set_csi_rx_cb csi_cb_t.csi_rx_cb]) ∧
    (∀ deliveries : List (List wifi_csi_info_t),
      ∃ rest, (sketch env fuel deliveries).board.trace.filter is_csi_call ++ rest =
        [Event.esp_wifi_set_csi true, Event.esp_wifi_set_csi_config ⟨1, 1, 1, 1, 0, 0, 0⟩,
          Event.esp_wifi_set_csi_rx_cb csi_cb_t.csi_rx_cb]) := by
  have hdone : ∀ (ds : List (List wifi_csi_info_t)) (b1 : Board),
      setup env fuel power_on = Outcome.done b1 →
      (sketch env fuel ds).board.trace.filter is_csi_call =
        [Event.esp_wifi_set_csi true, Event.esp_wifi_set_csi_config ⟨1, 1, 1, 1, 0, 0, 0⟩,
          Event.esp_wifi_set_csi_rx_cb csi_cb_t.csi_rx_cb] := by
    intro ds b1 hs
    obtain ⟨k, _, _, _, ht⟩ := setup_done_trace env fuel b1 hs
    obtain ⟨evs, h1, h2⟩ := run_loops_trace_no_csi env fuel ds b1
    unfold sketch
    rw [hs]
    show (run_loops env fuel ds b1).board.trace.filter is_csi_call = _
    rw [h1, List.filter_append, h2, ht]
    simp [List.filter_append, wait_events_no_csi, is_csi_call, configuration_eq]
  refine ⟨loop_trace_no_csi env fuel, csi_rx_cb_trace, hdone, ?_⟩
  intro ds
  cases hs : setup env fuel power_on with
  | done b1 => exact ⟨[], by rw [hdone ds b1 hs, List.append_nil]⟩
  | aborted b1 =>
    obtain ⟨rest, hr⟩ := setup_csi_calls env fuel
    rw [hs] at hr
    refine ⟨rest, ?_⟩
    unfold sketch
    rw [hs]
    exact hr
  | waiting b1 =>
    obtain ⟨rest, hr⟩ := setup_csi_calls env fuel
    rw [hs] at hr
    refine ⟨rest, ?_⟩
    unfold sketch
    rw [hs]
    exact hr

/-- A run as an instance of amended C8: the link is up for `setup()` and the first
iteration, down for the next three polls, then up again.  The run goes through a
liveness iteration, a reconnecting iteration and another liveness iteration, with CSI
records delivered in between, and its CSI calls are the three of `setup()`. -/
theorem csi_activation_not_repeated_witness :
    setup env_outage 4 power_on =
      Outcome.done ⟨0, "Connecting...\nConnected.\r\n".toList, 1,
        [Event.Serial_begin 921600, Event.WiFi_mode_STA, Event.esp_wifi_set_ps_NONE,
          Event.WiFi_begin "CSI_PROJECT_NETWORK" "passwordhardlikeassembly",
          Event.WiFi_status WL_CONNECTED, Event.esp_wifi_set_csi true,
          Event.esp_wifi_set_csi_config ⟨1, 1, 1, 1, 0, 0, 0⟩,
          Event.esp_wifi_set_csi_rx_cb csi_cb_t.csi_rx_cb]⟩ ∧
    (sketch env_outage 4 [[event1], [event2], [event4]]).board.trace.filter is_csi_call =
      [Event.esp_wifi_set_csi true, Event.esp_wifi_set_csi_config ⟨1, 1, 1, 1, 0, 0, 0⟩,
        Event.esp_wifi_set_csi_rx_cb csi_cb_t.csi_rx_cb] :=
  ⟨by decide,
    (csi_activation_not_repeated env_outage 4).2.2.1 [[event1], [event2], [event4]]
      ⟨0, "Connecting...\nConnected.\r\n".toList, 1,
        [Event.Serial_begin 921600, Event.WiFi_mode_STA, Event.esp_wifi_set_ps_NONE,
          Event.WiFi_begin "CSI_PROJECT_NETWORK" "passwordhardlikeassembly",
          Event.WiFi_status WL_CONNECTED, Event.esp_wifi_set_csi true,
          Event.esp_wifi_set_csi_config ⟨1, 1, 1, 1, 0, 0, 0⟩,
          Event.esp_wifi_set_csi_rx_cb csi_cb_t.csi_rx_cb]⟩ (by decide)⟩

end WS_RX
